import Mathlib

/-!
# Milestone 1 RDF Validator — formal model

A shallow embedding of `validate_milestone1.py`, the Milestone 1 RDF
validator for MovieLabs OMC graphs.  The graph is a list of triples whose
objects are tagged values (resource reference or literal); the four checks
(entity presence, location reference kind, participant-location two-hop
connectivity, data quality heuristics) and the final pass/fail verdict are
translated directly from the Python source.
-/

namespace Milestone1

/-- An RDF term as the validator distinguishes them: a resource reference
(URI) or a literal scalar value.  `rdflib`'s `isinstance(o, Literal)` test
becomes the `lit` constructor test. -/
inductive Node where
  | res : String → Node
  | lit : String → Node
deriving DecidableEq, Repr

/-- Python `str(node)`: a URI renders as itself and a literal
renders as its lexical value. -/
def Node.str : Node → String
  | Node.res u => u
  | Node.lit v => v

/-- Python `isinstance(o, Literal)`. -/
def Node.isLit : Node → Bool
  | Node.res _ => false
  | Node.lit _ => true

/-- One RDF triple `(subject, predicate, object)`.  Predicates are always
URIs, so they are kept as plain strings. -/
structure Triple where
  s : Node
  p : String
  o : Node
deriving DecidableEq, Repr

/-- The loaded graph: `rdflib.Graph` holds a set of triples; we model it as
a list (with a `Nodup` hypothesis wherever set semantics matters). -/
abbrev Graph := List Triple

/-- The ontology namespace `OMC`. -/
def omcNS : String := "https://movielabs.com/omc/rdf/schema/v2.8#"

/-- The `RDF.type` predicate. -/
def rdfTypeP : String := "http://www.w3.org/1999/02/22-rdf-syntax-ns#type"

/-- The `RDFS.label` predicate. -/
def rdfsLabelP : String := "http://www.w3.org/2000/01/rdf-schema#label"

/-- The `OMC.hasLocation` predicate. -/
def omcHasLocationP : String := omcNS ++ "hasLocation"

/-- The `OMC.hasParticipantStructuralCharacteristic` predicate. -/
def omcHasPSCP : String := omcNS ++ "hasParticipantStructuralCharacteristic"

/-- The `OMC.hasIdentifier` predicate. -/
def omcHasIdentifierP : String := omcNS ++ "hasIdentifier"

/-- The `OMC.CreativeWork` type resource. -/
def omcCreativeWorkN : Node := Node.res (omcNS ++ "CreativeWork")

/-- The `OMC.Participant` type resource. -/
def omcParticipantN : Node := Node.res (omcNS ++ "Participant")

/-- The `OMC.Person` type resource. -/
def omcPersonN : Node := Node.res (omcNS ++ "Person")

/-- The `OMC.Location` type resource. -/
def omcLocationN : Node := Node.res (omcNS ++ "Location")

/-- The `OMC.Asset` type resource. -/
def omcAssetN : Node := Node.res (omcNS ++ "Asset")

/-- Python `graph.subjects(RDF.type, ty)`: subjects of all `(s, rdf:type, ty)`
triples, one per matching triple. -/
def subjectsOfType (g : Graph) (ty : Node) : List Node :=
  (g.filter (fun t => t.p == rdfTypeP && t.o == ty)).map (fun t => t.s)

/-- Python `graph.objects(s, p)`: objects of all triples with the given subject
and predicate. -/
def objectsOf (g : Graph) (s : Node) (p : String) : List Node :=
  (g.filter (fun t => t.s == s && t.p == p)).map (fun t => t.o)

/-- The `requirements` dict of Check 1, in its (insertion) order. -/
def requirements : List (String × Node) :=
  [("CreativeWork", omcCreativeWorkN),
   ("Participant", omcParticipantN),
   ("Person", omcPersonN),
   ("Location", omcLocationN),
   ("Asset", omcAssetN)]

/-- Check 1 report: for each required entity name, the count
`len(list(graph.subjects(RDF.type, entity_type)))`. -/
def entityCounts (g : Graph) : List (String × Nat) :=
  requirements.map (fun r => (r.1, (subjectsOfType g r.2).length))

/-- Whether Check 1 leaves `passed` true: every required type has at least
one instance. -/
def entityPresencePassed (g : Graph) : Bool :=
  requirements.all (fun r => 0 < (subjectsOfType g r.2).length)

/-- Check 2: `location_errors`, the `(*, hasLocation, *)` triples whose
object is a `Literal`. -/
def locationErrors (g : Graph) : List Triple :=
  g.filter (fun t => t.p == omcHasLocationP && t.o.isLit)

/-- Check 3 enumeration: for each subject typed `Participant`, each object
reached through `hasParticipantStructuralCharacteristic`, then each of that
node's `hasLocation` objects, in loop order. -/
def twoHopResults (g : Graph) : List (Node × Node × Node) :=
  (subjectsOfType g omcParticipantN).flatMap (fun part =>
    (objectsOf g part omcHasPSCP).flatMap (fun person =>
      (objectsOf g person omcHasLocationP).map (fun loc => (part, person, loc))))

/-- Check 3 defects: two-hop results whose end value is a `Literal`
("Connection exists but uses STRING LITERAL"). -/
def malformedConnections (g : Graph) : List (Node × Node × Node) :=
  (twoHopResults g).filter (fun r => r.2.2.isLit)

/-- Check 3 successes: two-hop results whose end value is a resource
("participant → Person → Location" lines). -/
def successfulConnections (g : Graph) : List (Node × Node × Node) :=
  (twoHopResults g).filter (fun r => !r.2.2.isLit)

/-- The `connection_found` flag: starts `False`, set `True` at each non-literal
two-hop result, in loop order. -/
def connectionFound (g : Graph) : Bool :=
  (twoHopResults g).foldl (fun acc r => if r.2.2.isLit then acc else true) false

/-- The advisory "No Participant→Location connection found" warning of
Check 3, printed iff `connection_found` stayed false. -/
def noConnectionWarning (g : Graph) : Bool :=
  !(connectionFound g)

/-- Whether `needle` occurs in `hay` from its first position. -/
def startsWithList : List Char → List Char → Bool
  | [], _ => true
  | _ :: _, [] => false
  | a :: as, b :: bs => a == b && startsWithList as bs

/-- Python `needle in hay` for character lists: contiguous-substring containment,
Python's `in` on strings. -/
def containsList (needle : List Char) : List Char → Bool
  | [] => needle.isEmpty
  | b :: bs => startsWithList needle (b :: bs) || containsList needle bs

/-- Python `needle in hay` on strings. -/
def strContainsSub (hay needle : String) : Bool :=
  containsList needle.toList hay.toList

/-- Python `s.lower()` (character-wise, as the validator only needs ASCII
labels). -/
def lowerStr (s : String) : List Char :=
  s.toList.map Char.toLower

/-- Check 4 lexical scan: the `(*, rdfs:label, *)` triples whose object is
a `Literal` whose lower-cased value contains `'minessotta'`; each yields one
spelling quality issue suggesting "Minnesota". -/
def spellingIssues (g : Graph) : List Triple :=
  g.filter (fun t =>
    t.p == rdfsLabelP && t.o.isLit && containsList "minessotta".toList (lowerStr t.o.str))

/-- Check 4 circularity scan: the `(*, hasIdentifier, *)` triples with
`str(s) == str(o)`. -/
def circularTriples (g : Graph) : List Triple :=
  g.filter (fun t => t.p == omcHasIdentifierP && t.s.str == t.o.str)

/-- The `circular` counter. -/
def circularCount (g : Graph) : Nat :=
  (circularTriples g).length

/-- The aggregate circular-identifier quality issue: present iff
`circular > 0`, stating the count (the recommendation line is part of the
same aggregate issue). -/
def circularIssue (g : Graph) : Option Nat :=
  if 0 < circularCount g then some (circularCount g) else none

/-- The `passed` flag as the source computes it: starts `True`; Check 1
clears it at each missing required type; Check 2 clears it when
`location_errors` is non-empty; Check 3 clears it at each literal-ended
two-hop result.  Checks 4's quality findings never touch it. -/
def validatePassed (g : Graph) : Bool :=
  let p1 := requirements.foldl
    (fun acc r => if 0 < (subjectsOfType g r.2).length then acc else false) true
  let p2 := if (locationErrors g).isEmpty then p1 else false
  (twoHopResults g).foldl (fun acc r => if r.2.2.isLit then false else acc) p2

/-- The full diagnostic report of one validation run: the findings each of
the four checks prints, plus the final verdict. -/
structure Report where
  entityCounts : List (String × Nat)
  locationErrors : List Triple
  malformed : List (Node × Node × Node)
  successes : List (Node × Node × Node)
  noConnectionWarning : Bool
  spellingIssues : List Triple
  circularIssue : Option Nat
  passed : Bool
deriving DecidableEq, Repr

/-- The body of `validate_milestone1` on an already-loaded graph: runs the four checks
in order and accumulates every finding into one report. -/
def validateReport (g : Graph) : Report :=
  { entityCounts := entityCounts g
    locationErrors := locationErrors g
    malformed := malformedConnections g
    successes := successfulConnections g
    noConnectionWarning := noConnectionWarning g
    spellingIssues := spellingIssues g
    circularIssue := circularIssue g
    passed := validatePassed g }

/-- The `__main__` block: `sys.argv` with fewer than two entries exits 1
before loading; a parse failure makes `validate_milestone1` return `False`
(exit 1) before any check runs; otherwise the checks run and the exit code
follows the verdict.  `parse` stands for the external rdflib loader;
`none` is a parse exception. -/
def runCli (argv : List String) (parse : String → Option Graph) :
    Nat × Option Report :=
  match argv with
  | _ :: file :: _ =>
    match parse file with
    | none => (1, none)
    | some g =>
      let r := validateReport g
      (if r.passed then 0 else 1, some r)
  | _ => (1, none)

/-! ## Concrete graphs used as test inputs -/

/-- The instance-identifier namespace `ME`. -/
def meNS : String := "https://me-nexus.com/id/"

/-- A graph satisfying every Milestone 1 requirement, with one well-formed
two-hop Participant→Person→Location connection. -/
def gGood : Graph :=
  [⟨Node.res (meNS ++ "W"), rdfTypeP, omcCreativeWorkN⟩,
   ⟨Node.res (meNS ++ "P1"), rdfTypeP, omcParticipantN⟩,
   ⟨Node.res (meNS ++ "X1"), rdfTypeP, omcPersonN⟩,
   ⟨Node.res (meNS ++ "L1"), rdfTypeP, omcLocationN⟩,
   ⟨Node.res (meNS ++ "A1"), rdfTypeP, omcAssetN⟩,
   ⟨Node.res (meNS ++ "P1"), omcHasPSCP, Node.res (meNS ++ "X1")⟩,
   ⟨Node.res (meNS ++ "X1"), omcHasLocationP, Node.res (meNS ++ "L1")⟩]

/-- All five required types present but no edges at all: the only finding
is the advisory no-connection warning. -/
def gWarn : Graph :=
  [⟨Node.res (meNS ++ "W"), rdfTypeP, omcCreativeWorkN⟩,
   ⟨Node.res (meNS ++ "P1"), rdfTypeP, omcParticipantN⟩,
   ⟨Node.res (meNS ++ "X1"), rdfTypeP, omcPersonN⟩,
   ⟨Node.res (meNS ++ "L1"), rdfTypeP, omcLocationN⟩,
   ⟨Node.res (meNS ++ "A1"), rdfTypeP, omcAssetN⟩]

/-- A `hasLocation` triple whose object is an inline string literal — the
location-reference defect the validator hunts for. -/
def tBad : Triple :=
  ⟨Node.res (meNS ++ "X1"), omcHasLocationP, Node.lit "Minnesota"⟩

/-- A participant whose two-hop chain ends in the literal `tBad`. -/
def gLit : Graph :=
  [⟨Node.res (meNS ++ "P1"), rdfTypeP, omcParticipantN⟩,
   ⟨Node.res (meNS ++ "P1"), omcHasPSCP, Node.res (meNS ++ "X1")⟩,
   tBad]

/-- A participant two-hop chain whose intermediate node carries no
`rdf:type Person` triple and whose target carries no `rdf:type Location`
triple. -/
def gUntyped : Graph :=
  [⟨Node.res (meNS ++ "P1"), rdfTypeP, omcParticipantN⟩,
   ⟨Node.res (meNS ++ "P1"), omcHasPSCP, Node.res (meNS ++ "X1")⟩,
   ⟨Node.res (meNS ++ "X1"), omcHasLocationP, Node.res (meNS ++ "L1")⟩]

/-- Python `any`-style type lookup: whether the graph types
node `n` as `ty`. -/
def hasTypeB (g : Graph) (n ty : Node) : Bool :=
  g.any (fun t => t.s == n && t.p == rdfTypeP && t.o == ty)

/-- A resource-valued `hasLocation` triple together with the referenced
Location's type triple. -/
def gExist : Graph :=
  [⟨Node.res (meNS ++ "X1"), omcHasLocationP, Node.res (meNS ++ "L1")⟩,
   ⟨Node.res (meNS ++ "L1"), rdfTypeP, omcLocationN⟩]

/-- The same `hasLocation` triple with the referenced Location entity
absent from the graph. -/
def gNoExist : Graph :=
  [⟨Node.res (meNS ++ "X1"), omcHasLocationP, Node.res (meNS ++ "L1")⟩]

/-- A `hasIdentifier` triple whose object is a Literal carrying the same
text as the subject URI. -/
def gSelfId : Graph :=
  [⟨Node.res "a", omcHasIdentifierP, Node.lit "a"⟩]

/-- A label with the known misspelling in mixed case. -/
def tSpell : Triple :=
  ⟨Node.res (meNS ++ "L1"), rdfsLabelP, Node.lit "Saint Paul, MineSSotta"⟩

/-- A correctly spelled label. -/
def tClean : Triple :=
  ⟨Node.res (meNS ++ "L2"), rdfsLabelP, Node.lit "Saint Paul, Minnesota"⟩

/-- The graph `gGood` plus one misspelled and one clean label. -/
def gSpell : Graph := gGood ++ [tSpell, tClean]

/-- A loader that always raises a parse exception. -/
def parseFail : String → Option Graph := fun _ => none

/-- A loader that parses every file to `gGood`. -/
def parseGood : String → Option Graph := fun _ => some gGood

/-! ## Helper lemmas -/

theorem entityFold_eq (g : Graph) (l : List (String × Node)) : ∀ b : Bool,
    l.foldl (fun acc r => if 0 < (subjectsOfType g r.2).length then acc else false) b
      = (b && l.all (fun r => 0 < (subjectsOfType g r.2).length)) := by
  induction l with
  | nil => intro b; simp
  | cons a l ih =>
    intro b
    rw [List.foldl_cons, ih]
    by_cases h : 0 < (subjectsOfType g a.2).length <;>
      simp [h, Bool.and_assoc]

theorem hopFoldPassed_eq (l : List (Node × Node × Node)) : ∀ b : Bool,
    l.foldl (fun acc r => if r.2.2.isLit then false else acc) b
      = (b && (l.filter (fun r => r.2.2.isLit)).isEmpty) := by
  induction l with
  | nil => intro b; simp
  | cons a l ih =>
    intro b
    rw [List.foldl_cons, ih]
    cases h : a.2.2.isLit <;> simp [List.filter_cons, h]

theorem hopFoldFound_eq (l : List (Node × Node × Node)) : ∀ b : Bool,
    l.foldl (fun acc r => if r.2.2.isLit then acc else true) b
      = (b || !(l.filter (fun r => !r.2.2.isLit)).isEmpty) := by
  induction l with
  | nil => intro b; simp
  | cons a l ih =>
    intro b
    rw [List.foldl_cons, ih]
    cases h : a.2.2.isLit <;> simp [List.filter_cons, h]

/-- The verdict is exactly: all required types present, no literal-valued
`hasLocation` triple, no literal-ended two-hop connection. -/
theorem validatePassed_eq (g : Graph) :
    validatePassed g
      = (entityPresencePassed g && (locationErrors g).isEmpty
          && (malformedConnections g).isEmpty) := by
  unfold validatePassed entityPresencePassed malformedConnections
  rw [entityFold_eq, hopFoldPassed_eq]
  cases h : (locationErrors g).isEmpty <;>
    cases ha : requirements.all (fun r => 0 < (subjectsOfType g r.2).length) <;>
      simp [h, ha]

theorem connectionFound_eq (g : Graph) :
    connectionFound g = !(successfulConnections g).isEmpty := by
  unfold connectionFound successfulConnections
  rw [hopFoldFound_eq]
  simp

theorem mem_subjectsOfType (g : Graph) (s ty : Node) :
    s ∈ subjectsOfType g ty ↔ (⟨s, rdfTypeP, ty⟩ : Triple) ∈ g := by
  simp only [subjectsOfType, List.mem_map, List.mem_filter, Bool.and_eq_true,
    beq_iff_eq]
  constructor
  · rintro ⟨⟨ts, tp, tob⟩, ⟨htg, hp, ho⟩, rfl⟩
    simp only at hp ho
    subst hp; subst ho
    exact htg
  · intro h
    exact ⟨⟨s, rdfTypeP, ty⟩, ⟨h, rfl, rfl⟩, rfl⟩

theorem mem_objectsOf (g : Graph) (s : Node) (p : String) (o : Node) :
    o ∈ objectsOf g s p ↔ (⟨s, p, o⟩ : Triple) ∈ g := by
  simp only [objectsOf, List.mem_map, List.mem_filter, Bool.and_eq_true,
    beq_iff_eq]
  constructor
  · rintro ⟨⟨ts, tp, tob⟩, ⟨htg, hs, hp⟩, rfl⟩
    simp only at hs hp
    subst hs; subst hp
    exact htg
  · intro h
    exact ⟨⟨s, p, o⟩, ⟨h, rfl, rfl⟩, rfl⟩

/-- Removing elements that a selection predicate never selects leaves the
selection unchanged. -/
theorem filter_filter_of_imp {α : Type} (keep sel : α → Bool)
    (h : ∀ t, sel t = true → keep t = true) :
    ∀ g : List α, (g.filter keep).filter sel = g.filter sel := by
  intro g
  induction g with
  | nil => rfl
  | cons a g ih =>
    by_cases hk : keep a = true
    · simp only [List.filter_cons, hk, if_pos, ih]
    · have hs : sel a = false := by
        cases hsel : sel a
        · rfl
        · exact absurd (h a hsel) hk
      simp only [List.filter_cons, hk, hs, Bool.false_eq_true, if_false, ih]

theorem subjectsOfType_filter_keep (g : Graph) (keep : Triple → Bool)
    (hty : ∀ t : Triple, t.p = rdfTypeP → keep t = true) (ty : Node) :
    subjectsOfType (g.filter keep) ty = subjectsOfType g ty := by
  unfold subjectsOfType
  rw [filter_filter_of_imp keep _ ?_]
  intro t ht
  simp only [Bool.and_eq_true, beq_iff_eq] at ht
  exact hty t ht.1

theorem objectsOf_filter_keep (g : Graph) (keep : Triple → Bool) (p : String)
    (hp : ∀ t : Triple, t.p = p → keep t = true) (s : Node) :
    objectsOf (g.filter keep) s p = objectsOf g s p := by
  unfold objectsOf
  rw [filter_filter_of_imp keep _ ?_]
  intro t ht
  simp only [Bool.and_eq_true, beq_iff_eq] at ht
  exact hp t ht.2

theorem locationErrors_filter_keep (g : Graph) (keep : Triple → Bool)
    (hloc : ∀ t : Triple, t.p = omcHasLocationP → keep t = true) :
    locationErrors (g.filter keep) = locationErrors g := by
  unfold locationErrors
  rw [filter_filter_of_imp keep _ ?_]
  intro t ht
  simp only [Bool.and_eq_true, beq_iff_eq] at ht
  exact hloc t ht.1

theorem twoHopResults_filter_keep (g : Graph) (keep : Triple → Bool)
    (hty : ∀ t : Triple, t.p = rdfTypeP → keep t = true)
    (hpsc : ∀ t : Triple, t.p = omcHasPSCP → keep t = true)
    (hloc : ∀ t : Triple, t.p = omcHasLocationP → keep t = true) :
    twoHopResults (g.filter keep) = twoHopResults g := by
  have h2 : ∀ s, objectsOf (g.filter keep) s omcHasPSCP = objectsOf g s omcHasPSCP :=
    objectsOf_filter_keep g keep omcHasPSCP hpsc
  have h3 : ∀ s, objectsOf (g.filter keep) s omcHasLocationP = objectsOf g s omcHasLocationP :=
    objectsOf_filter_keep g keep omcHasLocationP hloc
  unfold twoHopResults
  rw [subjectsOfType_filter_keep g keep hty]
  simp only [h2, h3]

/-- The verdict ignores any triples the verdict-relevant predicates never
select: filtering them out does not change `passed`. -/
theorem validatePassed_filter_keep (g : Graph) (keep : Triple → Bool)
    (hty : ∀ t : Triple, t.p = rdfTypeP → keep t = true)
    (hpsc : ∀ t : Triple, t.p = omcHasPSCP → keep t = true)
    (hloc : ∀ t : Triple, t.p = omcHasLocationP → keep t = true) :
    validatePassed (g.filter keep) = validatePassed g := by
  rw [validatePassed_eq, validatePassed_eq]
  unfold entityPresencePassed malformedConnections
  rw [twoHopResults_filter_keep g keep hty hpsc hloc,
    locationErrors_filter_keep g keep hloc]
  simp only [subjectsOfType_filter_keep g keep hty]

theorem subjectsOfType_nodup (g : Graph) (h : g.Nodup) (ty : Node) :
    (subjectsOfType g ty).Nodup := by
  unfold subjectsOfType
  apply List.Nodup.map_on ?_ (h.filter _)
  intro x hx y hy hxy
  obtain ⟨hxg, hxc⟩ := List.mem_filter.1 hx
  obtain ⟨hyg, hyc⟩ := List.mem_filter.1 hy
  simp only [Bool.and_eq_true, beq_iff_eq] at hxc hyc
  obtain ⟨xs, xp, xo⟩ := x
  obtain ⟨ys, yp, yo⟩ := y
  simp only at hxy hxc hyc
  simp [hxy, hxc.1, hxc.2, hyc.1, hyc.2]

/-- On a duplicate-free graph the per-type subject list is itself
duplicate-free, so its length is the number of distinct typed subjects. -/
theorem subjectsOfType_dedup (g : Graph) (h : g.Nodup) (ty : Node) :
    (subjectsOfType g ty).dedup = subjectsOfType g ty :=
  List.dedup_eq_self.2 (subjectsOfType_nodup g h ty)

theorem mem_twoHopResults (g : Graph) (p x l : Node) :
    (p, x, l) ∈ twoHopResults g
      ↔ (⟨p, rdfTypeP, omcParticipantN⟩ : Triple) ∈ g
          ∧ (⟨p, omcHasPSCP, x⟩ : Triple) ∈ g
          ∧ (⟨x, omcHasLocationP, l⟩ : Triple) ∈ g := by
  simp only [twoHopResults, List.mem_flatMap, List.mem_map]
  constructor
  · rintro ⟨a, ha, b, hb, c, hc, heq⟩
    rw [Prod.mk.injEq, Prod.mk.injEq] at heq
    obtain ⟨rfl, rfl, rfl⟩ := heq
    exact ⟨(mem_subjectsOfType g a omcParticipantN).1 ha,
      (mem_objectsOf g a omcHasPSCP b).1 hb,
      (mem_objectsOf g b omcHasLocationP c).1 hc⟩
  · rintro ⟨h1, h2, h3⟩
    exact ⟨p, (mem_subjectsOfType g p omcParticipantN).2 h1, x,
      (mem_objectsOf g p omcHasPSCP x).2 h2, l,
      (mem_objectsOf g x omcHasLocationP l).2 h3, rfl⟩

/-! ## Claim theorems -/

/-- C1: the overall verdict is true iff all five required entity types are
present, there are zero `hasLocation` triples with a Literal object, and
zero Literal-terminated two-hop connections; the quality findings and the
no-connection warning do not occur in the verdict. -/
theorem overall_verdict_iff (g : Graph) :
    validatePassed g
        = (entityPresencePassed g && (locationErrors g).isEmpty
            && (malformedConnections g).isEmpty)
      ∧ (validateReport g).passed = validatePassed g :=
  ⟨validatePassed_eq g, rfl⟩

/-- C2 (counterexample): on `gUntyped` the checker records a successful
two-hop connection whose intermediate node is not typed `Person` and whose
target is not typed `Location`, so a successful connection does not imply
the chain is correctly typed. -/
theorem typed_connection_counterexample :
    (Node.res (meNS ++ "P1"), Node.res (meNS ++ "X1"), Node.res (meNS ++ "L1"))
        ∈ successfulConnections gUntyped
      ∧ hasTypeB gUntyped (Node.res (meNS ++ "X1")) omcPersonN = false
      ∧ hasTypeB gUntyped (Node.res (meNS ++ "L1")) omcLocationN = false := by
  decide

/-- C2 (amended): a recorded successful connection only guarantees the
subject is typed `Participant`, the two chain edges are in the graph, and
the end value is a resource; the intermediate and target node types are
not checked. -/
theorem successful_connection_edges (g : Graph) (p x l : Node)
    (h : (p, x, l) ∈ successfulConnections g) :
    (⟨p, rdfTypeP, omcParticipantN⟩ : Triple) ∈ g
      ∧ (⟨p, omcHasPSCP, x⟩ : Triple) ∈ g
      ∧ (⟨x, omcHasLocationP, l⟩ : Triple) ∈ g
      ∧ l.isLit = false := by
  obtain ⟨hm, hlit⟩ := List.mem_filter.1 h
  obtain ⟨h1, h2, h3⟩ := (mem_twoHopResults g p x l).1 hm
  simp only [Bool.not_eq_true'] at hlit
  exact ⟨h1, h2, h3, hlit⟩

/-- C2 witness: the amended theorem at the concrete graph `gUntyped`. -/
theorem successful_connection_edges_witness :
    (⟨Node.res (meNS ++ "P1"), rdfTypeP, omcParticipantN⟩ : Triple) ∈ gUntyped
      ∧ (⟨Node.res (meNS ++ "P1"), omcHasPSCP, Node.res (meNS ++ "X1")⟩ : Triple) ∈ gUntyped
      ∧ (⟨Node.res (meNS ++ "X1"), omcHasLocationP, Node.res (meNS ++ "L1")⟩ : Triple) ∈ gUntyped
      ∧ (Node.res (meNS ++ "L1")).isLit = false :=
  successful_connection_edges gUntyped
    (Node.res (meNS ++ "P1")) (Node.res (meNS ++ "X1")) (Node.res (meNS ++ "L1"))
    (by decide)

/-- C9: validation is deterministic — on equal input graphs it produces
the same report and the same verdict. -/
theorem validation_deterministic (g1 g2 : Graph) (h : g1 = g2) :
    validateReport g1 = validateReport g2
      ∧ validatePassed g1 = validatePassed g2 := by
  subst h
  exact ⟨rfl, rfl⟩

/-- C9 witness: determinism at the concrete graph `gGood`. -/
theorem validation_deterministic_witness :
    validateReport gGood = validateReport gGood
      ∧ validatePassed gGood = validatePassed gGood :=
  validation_deterministic gGood gGood rfl

/-- C10: the circularity scan compares `str(s)` with `str(o)`, so a
`hasIdentifier` triple whose Literal object carries the subject's URI text
is counted as circular even though the object is a literal, not a
resource reference equal to the subject. -/
theorem circular_string_comparison (g : Graph) (u : String)
    (h : (⟨Node.res u, omcHasIdentifierP, Node.lit u⟩ : Triple) ∈ g) :
    (⟨Node.res u, omcHasIdentifierP, Node.lit u⟩ : Triple) ∈ circularTriples g
      ∧ 0 < circularCount g
      ∧ (Node.lit u).isLit = true
      ∧ Node.lit u ≠ Node.res u := by
  have hm : (⟨Node.res u, omcHasIdentifierP, Node.lit u⟩ : Triple) ∈ circularTriples g :=
    List.mem_filter.2 ⟨h, by simp [Node.str]⟩
  refine ⟨hm, ?_, rfl, fun hEq => Node.noConfusion hEq⟩
  unfold circularCount
  exact List.length_pos.2 (List.ne_nil_of_mem hm)

/-- C10 witness: the string-comparison behavior at the concrete graph
`gSelfId`. -/
theorem circular_string_comparison_witness :
    (⟨Node.res "a", omcHasIdentifierP, Node.lit "a"⟩ : Triple) ∈ circularTriples gSelfId
      ∧ 0 < circularCount gSelfId
      ∧ (Node.lit "a").isLit = true
      ∧ Node.lit "a" ≠ Node.res "a" :=
  circular_string_comparison gSelfId "a" (by decide)

/-- C3: every Literal-ended two-hop result is recorded malformed and makes
the verdict false; every Resource-ended one is recorded successful; the
no-connection warning holds exactly when zero successful connections were
recorded; and the warning alone — with everything else clean — leaves the
verdict true. -/
theorem path_connectivity_spec (g : Graph) :
    (∀ p x l : Node, (p, x, l) ∈ twoHopResults g → l.isLit = true →
        (p, x, l) ∈ malformedConnections g ∧ validatePassed g = false)
      ∧ (∀ p x l : Node, (p, x, l) ∈ twoHopResults g → l.isLit = false →
          (p, x, l) ∈ successfulConnections g)
      ∧ (noConnectionWarning g = true ↔ successfulConnections g = [])
      ∧ (noConnectionWarning g = true → entityPresencePassed g = true →
          locationErrors g = [] → malformedConnections g = [] →
          validatePassed g = true) := by
  refine ⟨?_, ?_, ?_, ?_⟩
  · intro p x l hm hl
    have hmem : (p, x, l) ∈ malformedConnections g :=
      List.mem_filter.2 ⟨hm, by simp [hl]⟩
    refine ⟨hmem, ?_⟩
    have hne : (malformedConnections g).isEmpty = false := by
      cases hE : (malformedConnections g).isEmpty
      · rfl
      · rw [List.isEmpty_iff.1 hE] at hmem
        simp at hmem
    rw [validatePassed_eq]
    simp [hne]
  · intro p x l hm hl
    exact List.mem_filter.2 ⟨hm, by simp [hl]⟩
  · show (!connectionFound g) = true ↔ _
    rw [connectionFound_eq]
    simp [List.isEmpty_iff]
  · intro _ hp hle hmc
    rw [validatePassed_eq]
    simp [hp, hle, hmc]

/-- C3 witness: on `gWarn` the warning alone leaves the verdict true; on
`gLit` the literal-ended chain is recorded malformed and fails the run. -/
theorem path_connectivity_spec_witness :
    validatePassed gWarn = true
      ∧ ((Node.res (meNS ++ "P1"), Node.res (meNS ++ "X1"), Node.lit "Minnesota")
            ∈ malformedConnections gLit
          ∧ validatePassed gLit = false) :=
  ⟨(path_connectivity_spec gWarn).2.2.2 (by decide) (by decide) (by decide) (by decide),
   (path_connectivity_spec gLit).1
     (Node.res (meNS ++ "P1")) (Node.res (meNS ++ "X1")) (Node.lit "Minnesota")
     (by decide) (by decide)⟩

/-- C4: the Reference Kind Checker flags exactly the `(*, hasLocation, *)`
triples with a Literal object: all-Resource graphs yield zero errors, each
offending triple is reported and falsifies the verdict, and the result
depends only on the graph's `hasLocation` triples (existence of the
referenced Location is never consulted). -/
theorem reference_kind_spec (g : Graph) :
    locationErrors g = g.filter (fun t => t.p == omcHasLocationP && t.o.isLit)
      ∧ ((∀ t ∈ g, t.p = omcHasLocationP → t.o.isLit = false) → locationErrors g = [])
      ∧ (∀ t ∈ g, t.p = omcHasLocationP → t.o.isLit = true →
          t ∈ locationErrors g ∧ validatePassed g = false)
      ∧ (∀ g2 : Graph,
          g.filter (fun t => t.p == omcHasLocationP)
              = g2.filter (fun t => t.p == omcHasLocationP) →
          locationErrors g = locationErrors g2) := by
  have key : ∀ h : Graph,
      locationErrors h
        = (h.filter (fun t => t.p == omcHasLocationP)).filter (fun t => t.o.isLit) := by
    intro h
    induction h with
    | nil => rfl
    | cons a l ih =>
      unfold locationErrors at *
      cases hp : (a.p == omcHasLocationP) <;> cases ho : a.o.isLit <;>
        simp [List.filter_cons, hp, ho, ih]
  refine ⟨rfl, ?_, ?_, ?_⟩
  · intro h
    unfold locationErrors
    rw [List.filter_eq_nil_iff]
    intro t ht
    simp only [Bool.and_eq_true, beq_iff_eq, not_and]
    intro hp
    simp [h t ht hp]
  · intro t ht hp hl
    have hmem : t ∈ locationErrors g :=
      List.mem_filter.2 ⟨ht, by simp [hp, hl]⟩
    refine ⟨hmem, ?_⟩
    have hne : (locationErrors g).isEmpty = false := by
      cases hE : (locationErrors g).isEmpty
      · rfl
      · rw [List.isEmpty_iff.1 hE] at hmem
        simp at hmem
    rw [validatePassed_eq]
    simp [hne]
  · intro g2 h12
    rw [key g, key g2, h12]

/-- C4 witness: on `gLit` the literal-valued triple `tBad` is reported and
the verdict is false; and the checker output is identical whether or not
the referenced Location entity exists (`gExist` vs `gNoExist`). -/
theorem reference_kind_spec_witness :
    (tBad ∈ locationErrors gLit ∧ validatePassed gLit = false)
      ∧ locationErrors gExist = locationErrors gNoExist :=
  ⟨(reference_kind_spec gLit).2.2.1 tBad (by decide) (by decide) (by decide),
   (reference_kind_spec gExist).2.2.2 gNoExist (by decide)⟩

/-- C5: on a duplicate-free graph the entity check reports, for each of
the five required names in order, the number of distinct subjects with the
required type triple; presence holds iff each count is positive; any zero
count falsifies the verdict while all five names remain reported. -/
theorem entity_presence_spec (g : Graph) (hnd : g.Nodup) :
    entityCounts g
        = requirements.map (fun r => (r.1, ((subjectsOfType g r.2).dedup).length))
      ∧ (entityCounts g).map Prod.fst
          = ["CreativeWork", "Participant", "Person", "Location", "Asset"]
      ∧ entityPresencePassed g = (entityCounts g).all (fun r => 0 < r.2)
      ∧ ((∃ r ∈ entityCounts g, r.2 = 0) → validatePassed g = false) := by
  refine ⟨?_, rfl, ?_, ?_⟩
  · simp only [entityCounts, requirements, List.map_cons, List.map_nil,
      subjectsOfType_dedup g hnd]
  · simp only [entityPresencePassed, entityCounts, List.all_map]
    rfl
  · rintro ⟨r, hr, hz⟩
    rw [validatePassed_eq]
    cases hA : entityPresencePassed g
    · simp
    · exfalso
      unfold entityCounts at hr
      obtain ⟨req, hreq, rfl⟩ := List.mem_map.1 hr
      unfold entityPresencePassed at hA
      have h1 := List.all_eq_true.1 hA req hreq
      simp only [decide_eq_true_eq] at h1
      simp only at hz
      omega

/-- C5 witness: all five names reported on `gGood`; the zero CreativeWork
count on `gUntyped` falsifies the verdict. -/
theorem entity_presence_spec_witness :
    (entityCounts gGood).map Prod.fst
        = ["CreativeWork", "Participant", "Person", "Location", "Asset"]
      ∧ validatePassed gUntyped = false :=
  ⟨(entity_presence_spec gGood (by decide)).2.1,
   (entity_presence_spec gUntyped (by decide)).2.2.2
     ⟨("CreativeWork", 0), by decide, rfl⟩⟩

/-- C7 (counterexample): the graph `gSelfId` contains no triple whose
subject equals its object, yet the circular count is 1 — the scan compares
string renderings, not the subject and object values themselves. -/
theorem circularity_counterexample :
    circularCount gSelfId = 1 ∧ ∀ t ∈ gSelfId, ¬ t.s = t.o := by
  decide

/-- C7 (amended): the circularity scan counts exactly the
`(*, hasIdentifier, *)` triples whose subject and object have equal string
renderings; a positive count yields the one aggregate issue stating it;
two self-loop triples on distinct subjects count 2; and `hasIdentifier`
triples never affect the verdict. -/
theorem circularity_spec (g : Graph) :
    circularCount g
        = g.countP (fun t => t.p == omcHasIdentifierP && t.s.str == t.o.str)
      ∧ circularIssue g
          = (if 0 < circularCount g then some (circularCount g) else none)
      ∧ (∀ x y : String, x ≠ y →
          circularCount [⟨Node.res x, omcHasIdentifierP, Node.res x⟩,
            ⟨Node.res y, omcHasIdentifierP, Node.res y⟩] = 2)
      ∧ validatePassed (g.filter (fun t => !(t.p == omcHasIdentifierP)))
          = validatePassed g := by
  refine ⟨?_, rfl, ?_, ?_⟩
  · unfold circularCount circularTriples
    exact (List.countP_eq_length_filter _ _).symm
  · intro x y _
    simp [circularCount, circularTriples, Node.str, List.filter_cons]
  · apply validatePassed_filter_keep <;>
      · intro t ht
        rw [ht]
        decide

/-- C7 witness: two distinct self-loop identifier triples count 2. -/
theorem circularity_spec_witness :
    circularCount [⟨Node.res "a", omcHasIdentifierP, Node.res "a"⟩,
      ⟨Node.res "b", omcHasIdentifierP, Node.res "b"⟩] = 2 :=
  (circularity_spec []).2.2.1 "a" "b" (by decide)

/-- C8: on a duplicate-free graph, a label triple whose Literal value
lower-cases to contain "minessotta" yields exactly one spelling issue; a
label without it yields none; and label triples never affect the
verdict. -/
theorem lexical_quality_spec (g : Graph) (hnd : g.Nodup) :
    (∀ t ∈ g, ∀ v : String, t.p = rdfsLabelP → t.o = Node.lit v →
        containsList "minessotta".toList (lowerStr v) = true →
        (spellingIssues g).count t = 1)
      ∧ (∀ t ∈ g, ∀ v : String, t.p = rdfsLabelP → t.o = Node.lit v →
          containsList "minessotta".toList (lowerStr v) = false →
          t ∉ spellingIssues g)
      ∧ validatePassed (g.filter (fun t => !(t.p == rdfsLabelP)))
          = validatePassed g := by
  refine ⟨?_, ?_, ?_⟩
  · intro t ht v hp ho hc
    have hmem : t ∈ spellingIssues g := by
      refine List.mem_filter.2 ⟨ht, ?_⟩
      simp only [hp, ho, Node.isLit, Node.str, beq_self_eq_true, Bool.true_and]
      exact hc
    exact List.count_eq_one_of_mem (hnd.filter _) hmem
  · intro t ht v hp ho hc hmem
    obtain ⟨_, hcond⟩ := List.mem_filter.1 hmem
    rw [hp, ho] at hcond
    simp only [Node.isLit, Node.str, beq_self_eq_true, Bool.true_and] at hcond
    rw [hc] at hcond
    exact Bool.false_ne_true hcond
  · apply validatePassed_filter_keep <;>
      · intro t ht
        rw [ht]
        decide

/-- C8 witness: the mixed-case misspelled label yields exactly one issue
and the clean label yields none, on `gSpell`. -/
theorem lexical_quality_spec_witness :
    (spellingIssues gSpell).count tSpell = 1
      ∧ tClean ∉ spellingIssues gSpell :=
  ⟨(lexical_quality_spec gSpell (by decide)).1 tSpell (by decide)
     "Saint Paul, MineSSotta" rfl rfl (by decide),
   (lexical_quality_spec gSpell (by decide)).2.1 tClean (by decide)
     "Saint Paul, Minnesota" rfl rfl (by decide)⟩

/-- C6: fewer than two CLI arguments or a parse failure exits 1 with no
check run; in every other run the exit code follows the verdict and the
one report carries all four checks' findings. -/
theorem cli_spec (argv : List String) (parse : String → Option Graph) :
    (argv.length < 2 → runCli argv parse = (1, none))
      ∧ (∀ prog file rest, argv = prog :: file :: rest → parse file = none →
          runCli argv parse = (1, none))
      ∧ (∀ prog file rest g, argv = prog :: file :: rest → parse file = some g →
          runCli argv parse
              = ((if validatePassed g then 0 else 1), some (validateReport g))
            ∧ (validateReport g).entityCounts = entityCounts g
            ∧ (validateReport g).locationErrors = locationErrors g
            ∧ (validateReport g).malformed = malformedConnections g
            ∧ (validateReport g).successes = successfulConnections g
            ∧ (validateReport g).noConnectionWarning = noConnectionWarning g
            ∧ (validateReport g).spellingIssues = spellingIssues g
            ∧ (validateReport g).circularIssue = circularIssue g) := by
  refine ⟨?_, ?_, ?_⟩
  · intro h
    cases argv with
    | nil => rfl
    | cons a t =>
      cases t with
      | nil => rfl
      | cons b t2 =>
        simp only [List.length_cons] at h
        omega
  · rintro prog file rest rfl hp
    simp [runCli, hp]
  · rintro prog file rest g rfl hp
    refine ⟨?_, rfl, rfl, rfl, rfl, rfl, rfl, rfl⟩
    simp [runCli, hp]
    rfl

/-- C6 witness: missing argument, failing loader, and succeeding loader at
the concrete graph `gGood`. -/
theorem cli_spec_witness :
    runCli ["validate_milestone1.py"] parseGood = (1, none)
      ∧ runCli ["validate_milestone1.py", "graph.ttl"] parseFail = (1, none)
      ∧ runCli ["validate_milestone1.py", "graph.ttl"] parseGood
          = ((if validatePassed gGood then 0 else 1), some (validateReport gGood)) :=
  ⟨(cli_spec ["validate_milestone1.py"] parseGood).1 (by decide),
   (cli_spec ["validate_milestone1.py", "graph.ttl"] parseFail).2.1
     "validate_milestone1.py" "graph.ttl" [] rfl rfl,
   ((cli_spec ["validate_milestone1.py", "graph.ttl"] parseGood).2.2
     "validate_milestone1.py" "graph.ttl" [] gGood rfl rfl).1⟩

end Milestone1
